import Mathlib

/-!
Verification development for the runtime core of the "Sakura no Hana" arcade
shooter (entity/component/system framework plus per-frame simulation pipeline).

The definitions below are a shallow embedding of the C++ source:

* geometry (sf::Vector2f, sf::FloatRect and its intersects test) is modelled
  over the rationals, i.e. the float programs are read in exact arithmetic;
* the per-pair body of PhysicSystem::update (src/source/main.cpp, lines
  263-317) becomes the function innerStep, and the iteration over the second
  entity becomes innerLoop;
* the per-pair dispatch of CollisionEffectsSystem::update (lines 349-447)
  becomes ceStep, over entities whose capability slots are Option-valued: a
  slot holding none models both a missing component name and a failed
  dynamic_cast, exactly the two soft-failure modes of Entity::getComponent;
  lookups the C++ performs without a prior hasComponent check are modelled in
  the Option monad, so a null-pointer dereference appears as the result none;
* LifeSystem::update (lines 568-594) becomes lifeStep / lifePass;
* the alpha computation of ParticleWatcherSystem::update (lines 630-643)
  becomes particleAlpha, with the C++ float-to-Uint8 conversion modelled as
  truncation toward zero followed by the observed two's-complement wrap
  (the conversion is undefined behaviour in C++ when the value is out of
  range; the wrap is the conventional machine outcome);
* the combo/score handling of the ColoredBallShot event in World::update
  (lines 887-922) becomes comboStep;
* Entity::getComponent (src/source/kantan/Entity/Entity.hpp, lines 48-57)
  becomes getComponent over a name-keyed association list with an explicit
  model of dynamic_cast;
* World::cleanEntities (lines 987-1011) becomes cleanEntities, with the
  world-level component registry modelled as the list of component
  identifiers held in World::m_components.
-/

namespace SakuraNoHana

/-! ## Geometry: sf::Vector2f and sf::FloatRect in exact arithmetic -/

/-- sf::Vector2f read in exact arithmetic. -/
structure Vec2 where
  x : ℚ
  y : ℚ
deriving DecidableEq

/-- sf::FloatRect: axis-aligned rectangle given by top-left corner and size. -/
structure Rect where
  left : ℚ
  top : ℚ
  width : ℚ
  height : ℚ
deriving DecidableEq

/-- The overlap predicate of sf::FloatRect::intersects (SFML 2.x): the two
rectangles are normalized with min/max and intersect when the strict
inequalities interLeft < interRight and interTop < interBottom hold, so
rectangles that merely touch along an edge do not intersect. -/
def Overlaps (a b : Rect) : Prop :=
  max (min a.left (a.left + a.width)) (min b.left (b.left + b.width)) <
      min (max a.left (a.left + a.width)) (max b.left (b.left + b.width)) ∧
  max (min a.top (a.top + a.height)) (min b.top (b.top + b.height)) <
      min (max a.top (a.top + a.height)) (max b.top (b.top + b.height))

instance (a b : Rect) : Decidable (Overlaps a b) := instDecidableAnd

/-- Boolean form of sf::FloatRect::intersects. -/
def intersects (a b : Rect) : Bool :=
  decide (Overlaps a b)

/-- Translate a rectangle by a displacement vector; this is the copy of the
first hitbox with the tentative movement applied (main.cpp lines 264-266). -/
def projected (r : Rect) (mv : Vec2) : Rect :=
  { r with left := r.left + mv.x, top := r.top + mv.y }

/-! ## PhysicSystem::update, per-pair body (main.cpp lines 263-317) -/

/-- The side-classification and displacement clamp of PhysicSystem::update
(lines 276-300): the collision side is decided from the two pre-movement
rectangles, in the fixed priority order bottom, top, right, left; each side
clamps one axis of the tentative displacement to the exact gap between the
rectangles, and the interior case leaves the displacement unchanged. -/
def correctedMovement (fstR sndR : Rect) (mv : Vec2) : Vec2 :=
  if fstR.top + fstR.height ≤ sndR.top then
    ⟨mv.x, sndR.top - (fstR.top + fstR.height)⟩
  else if sndR.top + sndR.height ≤ fstR.top then
    ⟨mv.x, -(fstR.top - (sndR.top + sndR.height))⟩
  else if fstR.left + fstR.width ≤ sndR.left then
    ⟨sndR.left - (fstR.left + fstR.width), mv.y⟩
  else if sndR.left + sndR.width ≤ fstR.left then
    ⟨-(fstR.left - (sndR.left + sndR.width)), mv.y⟩
  else
    mv

/-- The mover's state in the physics pair loop: its hitbox rectangle, its
velocity, and its hitbox's blocking flag. -/
structure FstState where
  rect : Rect
  vel : Vec2
  blocking : Bool
deriving DecidableEq

/-- The second entity of a pair, as the physics loop reads it: its current
hitbox and its blocking flag. -/
structure SndInfo where
  sndRect : Rect
  sndBlocking : Bool
deriving DecidableEq

/-- Result of one iteration of the inner pair loop: the mover's updated
state, the (possibly clamped) displacement the iteration computed, and
whether the pair was recorded in the collision record. -/
structure StepOut where
  state : FstState
  mv : Vec2
  recorded : Bool
deriving DecidableEq

/-- The tentative displacement of the mover for this tick: velocity * dt
(main.cpp line 269). -/
def tentative (dt : ℚ) (s : FstState) : Vec2 :=
  ⟨s.vel.x * dt, s.vel.y * dt⟩

/-- One iteration of the inner loop of PhysicSystem::update (lines 263-311):
project the mover's hitbox by velocity * dt, test intersection against the
second hitbox, clamp the displacement by the side classification when they
intersect (recording the pair), and, whenever both hitboxes are blocking,
overwrite the mover's velocity with displacement / dt - with no guard that
dt is nonzero and regardless of whether the pair intersected, exactly as in
the source. -/
def innerStep (dt : ℚ) (s : FstState) (p : SndInfo) : StepOut :=
  let mv0 : Vec2 := tentative dt s
  let proj : Rect := projected s.rect mv0
  let hit : Bool := intersects proj p.sndRect
  let mv1 : Vec2 := if hit then correctedMovement s.rect p.sndRect mv0 else mv0
  let vel1 : Vec2 :=
    if s.blocking && p.sndBlocking then ⟨mv1.x / dt, mv1.y / dt⟩ else s.vel
  ⟨⟨s.rect, vel1, s.blocking⟩, mv1, hit⟩

/-- The inner loop over all second entities for a fixed mover (lines
246-312): the state produced by one pair is the input of the next, so later
pairs observe the corrected velocity. -/
def innerLoop (dt : ℚ) (s : FstState) : List SndInfo → FstState
  | [] => s
  | p :: ps => innerLoop dt (innerStep dt s p).state ps

/-- After the inner loop, the (possibly corrected) velocity is applied once
to the mover's hitbox (lines 314-316). -/
def applyVelocity (s : FstState) (dt : ℚ) : Rect :=
  projected s.rect ⟨s.vel.x * dt, s.vel.y * dt⟩

/-! ## Entities and components for the gameplay systems -/

/-- The four ball colors of the game (sf::Color::Red / Blue / Green /
Yellow as used by CollisionEffectsSystem and the affinity logic). -/
inductive GColor where
  | red
  | blue
  | green
  | yellow
deriving DecidableEq

/-- The data of a SpriteComponent that the gameplay systems read: the left
edge of the current texture sub-rectangle (sprite.getTextureRect().left) and
the sprite's global bounds (sprite.getGlobalBounds()). -/
structure SpriteData where
  texLeft : ℤ
  bounds : Rect
deriving DecidableEq

/-- A game entity as the gameplay systems see it: the kantan::Entity id and
category name, plus one Option-valued slot per capability the systems
request by name. A slot holding none models both a missing component name
and a stored component whose dynamic type does not match the request, the
two cases in which Entity::getComponent returns a null pointer. compIds
lists the identities of the entity's components inside the world-level
registry World::m_components. -/
structure GEntity where
  eid : ℕ
  name : String
  marker : Option Bool
  life : Option (ℤ × Bool)
  sprite : Option SpriteData
  hitbox : Option (Rect × Bool)
  movement : Option Vec2
  compIds : List ℕ
deriving DecidableEq

/-- The gameplay events pushed into the kantan event queue: ColoredBallShot
with its color/center payload, PlayerHit with no payload, EntityDeath
carrying a reference to the dying entity (modelled by its id). -/
inductive GEvent where
  | coloredBallShot (color : GColor) (center : Vec2)
  | playerHit
  | entityDeath (eid : ℕ)
deriving DecidableEq

/-- The color-band decode of CollisionEffectsSystem::update (main.cpp lines
370-377): the struck ball's texture-rect left offset is split at 64, 128 and
192 into four bands mapped to red, blue, green and yellow. -/
def ballColor (texLeft : ℤ) : GColor :=
  if texLeft < 64 then GColor.red
  else if texLeft < 64 * 2 then GColor.blue
  else if texLeft < 64 * 3 then GColor.green
  else GColor.yellow

/-- The visual center of a sprite (lines 379-381): the center of its global
bounds. -/
def spriteCenter (sp : SpriteData) : Vec2 :=
  ⟨sp.bounds.left + sp.bounds.width / 2, sp.bounds.top + sp.bounds.height / 2⟩

/-! ## CollisionEffectsSystem::update, per-pair dispatch (lines 349-447) -/

/-- The body of the loop of CollisionEffectsSystem::update for one recorded
collision pair. The dispatch is on the ordered pair of category names,
exactly in the source's if / else-if order; every component access the
source performs without a hasComponent guard is a bind in the Option monad,
so the result none models a null-pointer dereference. On success it returns
the two updated entities and the list of events pushed for this pair. -/
def ceStep (a b : GEntity) : Option (GEntity × GEntity × List GEvent) :=
  if a.name = "Sakura" ∧ b.name = "Ball" then do
    let lb ← b.life
    let la ← a.life
    let _ ← a.marker
    let _ ← b.marker
    let sp ← b.sprite
    some ({ a with life := some (0, la.2), marker := some true },
          { b with life := some (0, lb.2), marker := some true },
          [GEvent.coloredBallShot (ballColor sp.texLeft) (spriteCenter sp)])
  else if a.name = "Ball" ∧ b.name = "Box" then do
    let la ← a.life
    let _ ← a.marker
    some ({ a with life := some (0, la.2), marker := some true }, b, [])
  else if a.name = "Box" ∧ b.name = "Ball" then do
    let lb ← b.life
    let _ ← b.marker
    some (a, { b with life := some (0, lb.2), marker := some true }, [])
  else if a.name = "Ball" ∧ b.name = "Player" then do
    let la ← a.life
    let _ ← a.marker
    let lb ← b.life
    some ({ a with life := some (0, la.2), marker := some true },
          { b with life := some (lb.1 - 1, lb.2) },
          [GEvent.playerHit])
  else if a.name = "Player" ∧ b.name = "Ball" then do
    let lb ← b.life
    let _ ← b.marker
    let la ← a.life
    some ({ a with life := some (la.1 - 1, la.2) },
          { b with life := some (0, lb.2), marker := some true },
          [GEvent.playerHit])
  else
    some (a, b, [])

/-! ## LifeSystem::update (lines 568-594) -/

/-- The body of LifeSystem::update for one entity: entities without a life
component are skipped (this system does guard with hasComponent); an entity
whose lifepoints are ≤ 0 has alive set to false and an EntityDeath event
pushed - the source checks only the lifepoints, never the alive flag. -/
def lifeStep (e : GEntity) : GEntity × List GEvent :=
  match e.life with
  | none => (e, [])
  | some (lp, _) =>
      if lp ≤ 0 then
        ({ e with life := some (lp, false) }, [GEvent.entityDeath e.eid])
      else
        (e, [])

/-- LifeSystem::update over the whole entity list, with the emitted events
concatenated in iteration order. The pass never adds or removes entities. -/
def lifePass : List GEntity → List GEntity × List GEvent
  | [] => ([], [])
  | e :: es =>
      let (e', evs) := lifeStep e
      let (es', evss) := lifePass es
      (e' :: es', evs ++ evss)

/-! ## ParticleWatcherSystem::update, per-particle alpha (lines 630-643) -/

/-- C++ float-to-integer conversion truncates toward zero. -/
def truncQ (q : ℚ) : ℤ :=
  if 0 ≤ q then ⌊q⌋ else -⌊-q⌋

/-- The observed behaviour of static_cast to sf::Uint8 for an out-of-range
value on two's-complement hardware: reduction modulo 256. (The C++ standard
makes this conversion undefined when the truncated value does not fit in the
destination type; the source performs it with no range check.) -/
def uint8Wrap (n : ℤ) : ℤ :=
  n % 256

/-- The value the source multiplies into the alpha channel before the cast:
the particle's remaining lifetime in seconds times 255 (lines 641-642),
with the remaining lifetime held in milliseconds. There is no clamping and
no normalization by the particle's initial lifetime. -/
def particleAlphaRaw (lifetimeMs : ℤ) : ℚ :=
  ((lifetimeMs : ℚ) / 1000) * 255

/-- The alpha value actually stored into the vertex color (line 642):
static_cast of the raw value to sf::Uint8. -/
def particleAlpha (lifetimeMs : ℤ) : ℤ :=
  uint8Wrap (truncQ (particleAlphaRaw lifetimeMs))

/-! ## World::update, ColoredBallShot combo/score handling (lines 887-922) -/

/-- COMBO_MIN as set for the EASY and NORMAL difficulties (a float global in
the source, compared against the int combo counter). -/
def COMBO_MIN : ℚ := 5

/-- SUGOI_COMBO as set for the EASY and NORMAL difficulties. -/
def SUGOI_COMBO : ℤ := 10

/-- LIFE_POINTS as set for the NORMAL difficulty. -/
def LIFE_POINTS : ℤ := 5

/-- BALL_VELOCITY as set for the EASY and NORMAL difficulties. -/
def BALL_VELOCITY : ℚ := 300

/-- SAKURA_VELOCITY, the negation of BALL_VELOCITY. -/
def SAKURA_VELOCITY : ℚ := -BALL_VELOCITY

/-- The ColoredBallShot handler of World::update restricted to score, combo
and the sugoi-milestone trigger: on a matching-affinity hit the combo is
incremented first, the milestone fires when the new combo exceeds COMBO_MIN
and is divisible by SUGOI_COMBO, and the score grows by the new combo when
it exceeds COMBO_MIN and by one otherwise; on a mismatched hit the score
drops by one and the combo resets to zero. Returns (new combo, new score,
milestone fired). -/
def comboStep (sameAffinity : Bool) (combo score : ℤ) : ℤ × ℤ × Bool :=
  if sameAffinity then
    let c := combo + 1
    let milestone := decide (COMBO_MIN < (c : ℚ) ∧ c % SUGOI_COMBO = 0)
    let s := if COMBO_MIN < (c : ℚ) then score + c else score + 1
    (c, s, milestone)
  else
    (0, score - 1, false)

/-! ## Entity::getComponent (Entity.hpp lines 48-57) -/

/-- The concrete component kinds of the game, as a closed sum; the payloads
carry the data fields of the corresponding C++ component classes. -/
inductive CompData where
  | deletionMarker (toDelete : Bool)
  | hitboxComp (hitbox : Rect) (isBlocking : Bool)
  | spriteComp (sp : SpriteData)
  | movementComp (velocity : Vec2)
  | animationComp (currentFrame : ℕ)
  | lifeComp (lifepoints : ℤ) (alive : Bool)
  | particleComp (lifetimeMs : ℤ)
deriving DecidableEq

/-- The capability type requested through the template parameter of
Entity::getComponent. -/
inductive CompTag where
  | deletionMarker
  | hitboxComp
  | spriteComp
  | movementComp
  | animationComp
  | lifeComp
  | particleComp
deriving DecidableEq

/-- The dynamic type of a stored component. -/
def tagOf : CompData → CompTag
  | CompData.deletionMarker _ => CompTag.deletionMarker
  | CompData.hitboxComp _ _ => CompTag.hitboxComp
  | CompData.spriteComp _ => CompTag.spriteComp
  | CompData.movementComp _ => CompTag.movementComp
  | CompData.animationComp _ => CompTag.animationComp
  | CompData.lifeComp _ _ => CompTag.lifeComp
  | CompData.particleComp _ => CompTag.particleComp

/-- dynamic_cast of a stored Component pointer to the requested capability:
the same component when its dynamic type matches, a null pointer (none)
otherwise. -/
def dynCast (t : CompTag) (c : CompData) : Option CompData :=
  if tagOf c = t then some c else none

/-- m_components.find(name) on the entity's name-keyed component map,
modelled as first-match lookup in an association list (component names are
unique within an entity). -/
def lookupComp : List (String × CompData) → String → Option CompData
  | [], _ => none
  | (k, c) :: rest, name => if k = name then some c else lookupComp rest name

/-- Entity::getComponent (Entity.hpp lines 48-57): look the name up in the
component map; if present, dynamic_cast the stored component to the
requested capability; if the name is absent, return a null pointer. The
function is total: no path throws. -/
def getComponent (comps : List (String × CompData)) (t : CompTag)
    (name : String) : Option CompData :=
  match lookupComp comps name with
  | some c => dynCast t c
  | none => none

/-! ## The world's factory paths (main.cpp lines 1014-1170) -/

/-- World::addPlayer (lines 1103-1124): entity "Player" with deletion
marker (false), sprite (texture rect starting at offset 0), blocking hitbox,
movement and a life component holding LIFE_POINTS. -/
def mkPlayer (eid : ℕ) (cids : List ℕ) (bounds : Rect) : GEntity :=
  { eid := eid, name := "Player", marker := some false,
    life := some (LIFE_POINTS, true), sprite := some ⟨0, bounds⟩,
    hitbox := some (⟨65, 640, bounds.width, bounds.height⟩, true),
    movement := some ⟨0, 0⟩, compIds := cids }

/-- World::shootSakura (lines 1078-1100): entity "Sakura" with deletion
marker, sprite, non-blocking hitbox, upward movement and one life point. -/
def mkSakura (eid : ℕ) (cids : List ℕ) (pos : Vec2) (bounds : Rect) : GEntity :=
  { eid := eid, name := "Sakura", marker := some false,
    life := some (1, true), sprite := some ⟨0, bounds⟩,
    hitbox := some (⟨pos.x, pos.y, bounds.width, bounds.height⟩, false),
    movement := some ⟨0, SAKURA_VELOCITY⟩, compIds := cids }

/-- World::createBall (lines 1127-1154): entity "Ball" with deletion marker,
sprite whose texture rect starts at randomColor (a multiple of 64 in 0..192),
non-blocking 64x64 hitbox, downward movement and one life point. -/
def mkBall (eid : ℕ) (cids : List ℕ) (randomX randomColor : ℤ)
    (bounds : Rect) : GEntity :=
  { eid := eid, name := "Ball", marker := some false,
    life := some (1, true), sprite := some ⟨randomColor, bounds⟩,
    hitbox := some (⟨(randomX : ℚ), -64, 64, 64⟩, false),
    movement := some ⟨0, BALL_VELOCITY⟩, compIds := cids }

/-- World::createBox (lines 1035-1059): entity "Box" with deletion marker,
sprite, blocking 64x64 hitbox and an animation. A box has no life and no
movement component. -/
def mkBox (eid : ℕ) (cids : List ℕ) (pos : Vec2) : GEntity :=
  { eid := eid, name := "Box", marker := some false,
    life := none, sprite := some ⟨0, ⟨pos.x, pos.y, 64, 64⟩⟩,
    hitbox := some (⟨pos.x, pos.y, 64, 64⟩, true),
    movement := none, compIds := cids }

/-- World::createExplosion (lines 1156-1170): entity "Explosion" with a
deletion marker and a particle component, and nothing else. -/
def mkExplosion (eid : ℕ) (cids : List ℕ) : GEntity :=
  { eid := eid, name := "Explosion", marker := some false,
    life := none, sprite := none, hitbox := none,
    movement := none, compIds := cids }

/-- An entity produced by one of the world's factory paths, for some choice
of the factory's parameters. Every entity of the running game is created
through one of these five paths. -/
def FactoryMade (e : GEntity) : Prop :=
  (∃ eid cids bounds, e = mkPlayer eid cids bounds) ∨
  (∃ eid cids pos bounds, e = mkSakura eid cids pos bounds) ∨
  (∃ eid cids rx rc bounds, e = mkBall eid cids rx rc bounds) ∨
  (∃ eid cids pos, e = mkBox eid cids pos) ∨
  (∃ eid cids, e = mkExplosion eid cids)

/-! ## World::cleanEntities (lines 987-1011) -/

/-- std::find followed by vector::erase on the component registry: remove
the first occurrence of the component, or leave the registry unchanged when
it is not present. -/
def eraseFirst : List ℕ → ℕ → List ℕ
  | [], _ => []
  | x :: xs, c => if x = c then xs else x :: eraseFirst xs c

/-- The inner loop of World::cleanEntities over one deleted entity's
components (lines 997-1003): each component is looked up in the registry and
erased when found. -/
def removeComps (reg : List ℕ) (cs : List ℕ) : List ℕ :=
  cs.foldl eraseFirst reg

/-- The two world-owned registries: the entity list World::m_entities and
the component list World::m_components (by component identity). -/
structure WorldSt where
  entities : List GEntity
  registry : List ℕ
deriving DecidableEq

/-- The sweep loop of World::cleanEntities (lines 989-1010): walk the entity
list in order; for an entity whose deletion marker is set, erase each of its
components from the component registry and drop the entity from the entity
list; otherwise keep it. The source dereferences the DeletionMarker lookup
without a guard, so an entity without a marker is a null dereference,
modelled as the result none. -/
def cleanGo : List GEntity → List ℕ → Option (List GEntity × List ℕ)
  | [], reg => some ([], reg)
  | e :: es, reg =>
      match e.marker with
      | none => none
      | some true => cleanGo es (removeComps reg e.compIds)
      | some false =>
          match cleanGo es reg with
          | none => none
          | some (es', reg') => some (e :: es', reg')

/-- World::cleanEntities: the end-of-tick sweep over the two registries. -/
def cleanEntities (st : WorldSt) : Option WorldSt :=
  match cleanGo st.entities st.registry with
  | none => none
  | some (es, reg) => some ⟨es, reg⟩

/-! ## Theorems -/

/-- C9: for every component map, component name and requested capability,
Entity::getComponent returns the stored component exactly when the name is
present and the stored component's dynamic type matches the requested
capability, and returns the absent result (a null pointer) exactly when the
name is missing or the dynamic type does not match; the function is total,
so no lookup throws. -/
theorem getComponent_soft_fail (comps : List (String × CompData))
    (t : CompTag) (name : String) :
    (∀ c, getComponent comps t name = some c ↔
      lookupComp comps name = some c ∧ tagOf c = t) ∧
    (getComponent comps t name = none ↔
      lookupComp comps name = none ∨
        ∃ c, lookupComp comps name = some c ∧ tagOf c ≠ t) := by
  unfold getComponent dynCast
  cases h : lookupComp comps name with
  | none =>
      constructor
      · intro c
        simp
      · simp
  | some c0 =>
      by_cases ht : tagOf c0 = t
      · constructor
        · intro c
          simp only [if_pos ht, Option.some.injEq]
          constructor
          · rintro rfl
            exact ⟨rfl, ht⟩
          · rintro ⟨rfl, _⟩
            rfl
        · simp [if_pos ht, ht]
      · constructor
        · intro c
          simp only [if_neg ht]
          constructor
          · intro hc
            cases hc
          · rintro ⟨hc, htag⟩
            obtain rfl : c0 = c := (Option.some.injEq _ _).mp hc
            exact absurd htag ht
        · exact iff_of_true (if_neg ht) (Or.inr ⟨c0, rfl, ht⟩)

/-- C6: in the ColoredBallShot handler, with COMBO_MIN = 5 and
SUGOI_COMBO = 10, a matching-affinity hit at combo 12 produces combo 13,
adds 13 to the score via the combo path and fires no milestone (13 is not a
multiple of 10); a hit at combo 19 produces combo 20, fires the milestone
(20 is a multiple of 10 and exceeds 5), and adds 20 to the score - the
combo-greater-than-COMBO_MIN path, not the plus-one path. -/
theorem combo_milestone_cases (s : ℤ) :
    comboStep true 12 s = (13, s + 13, false) ∧
    comboStep true 19 s = (20, s + 20, true) := by
  unfold comboStep COMBO_MIN SUGOI_COMBO
  norm_num

/-- C2 failing-input evaluation: the alpha stored by
ParticleWatcherSystem::update is the raw value lifetimeSeconds * 255
truncated and wrapped to the Uint8 range with no clamping. A particle with
remaining lifetime 2000 ms (a legal initial lifetime) yields raw value 510
and stored alpha 254, not 255; at 1004 ms the stored alpha wraps to 0
mid-fade; at remaining lifetime -100 ms the stored alpha is 231, not 0.
Only a particle whose remaining lifetime is exactly 1000 ms yields 255. -/
theorem particle_alpha_wraps_not_clamped :
    particleAlphaRaw 2000 = 510 ∧
    particleAlpha 2000 = 254 ∧
    particleAlpha 1004 = 0 ∧
    particleAlpha (-100) = 231 ∧
    particleAlpha 1000 = 255 := by
  unfold particleAlpha particleAlphaRaw uint8Wrap truncQ
  norm_num

/-- A concrete registry entry for the life-system analysis: an entity whose
lifepoints are 0 and whose alive flag is already false. -/
def spentEntity : GEntity :=
  { eid := 7, name := "Ball", marker := some false, life := some (0, false),
    sprite := none, hitbox := none, movement := none, compIds := [] }

/-- C3 counterexample: LifeSystem::update never reads the alive flag. An
entity whose lifepoints are 0 but whose alive flag is already false still
gets a death event, and it gets another one on the next tick it is
iterated, contradicting the claim that a death event is emitted exactly
when the entity is still marked alive and hence exactly once in total. -/
theorem lifeStep_emits_though_not_alive :
    spentEntity.life = some (0, false) ∧
    lifeStep spentEntity = (spentEntity, [GEvent.entityDeath 7]) ∧
    lifeStep (lifeStep spentEntity).1 = (spentEntity, [GEvent.entityDeath 7]) := by
  refine ⟨rfl, ?_, ?_⟩ <;> rfl

/-- C3 amended: LifeSystem::update (lines 568-594) emits a death event for
an entity exactly when it has a life component with lifepoints ≤ 0,
regardless of the alive flag, and sets alive to false each time; an entity
with lifepoints ≤ 0 that stays in the registry therefore produces one death
event per tick, not exactly one in total - uniqueness in the running game
relies on such entities being swept (or the game ending) in the very tick
their life reaches zero. -/
theorem lifeStep_emission_characterization (e : GEntity) :
    (e.life = none → lifeStep e = (e, [])) ∧
    (∀ lp al, e.life = some (lp, al) → lp ≤ 0 →
      lifeStep e = ({ e with life := some (lp, false) },
                    [GEvent.entityDeath e.eid])) ∧
    (∀ lp al, e.life = some (lp, al) → 0 < lp → lifeStep e = (e, [])) := by
  refine ⟨?_, ?_, ?_⟩
  · intro h
    unfold lifeStep
    rw [h]
  · intro lp al h hle
    unfold lifeStep
    rw [h]
    simp [hle]
  · intro lp al h hpos
    unfold lifeStep
    rw [h]
    simp [not_le.mpr hpos]

/-- C3 witness: the amended characterization applied to a concrete entity
with one hit taken from one life point (lifepoints 0, still alive): the
death event is emitted and alive is cleared. -/
theorem lifeStep_emission_characterization_witness :
    ({ spentEntity with life := some (0, true) } : GEntity).life = some (0, true) ∧
    lifeStep { spentEntity with life := some (0, true) } =
      ({ spentEntity with life := some (0, false) }, [GEvent.entityDeath 7]) :=
  ⟨rfl, (lifeStep_emission_characterization
    { spentEntity with life := some (0, true) }).2.1 0 true rfl le_rfl⟩

/-- C4: in the physics pair loop, the pair is recorded exactly when the
hitbox projected by velocity * dt intersects the second entity's current
hitbox; when it does, the displacement the step applies is the clamp
computed from the two pre-movement rectangles, which picks the sides in
the fixed priority order bottom, top, right, left (a lower-priority side
never fires while a higher one applies, and the untouched axis keeps the
tentative displacement); when none of the four side conditions holds the
displacement is left unchanged (interior no-op) but the pair is still
recorded; in particular a rectangle moving straight down into a rectangle
below it has its vertical displacement clamped to exactly
targetTop - (sourceTop + sourceHeight). -/
theorem collision_classification_priority (dt : ℚ) (s : FstState) (p : SndInfo) :
    ((innerStep dt s p).recorded =
      intersects (projected s.rect (tentative dt s)) p.sndRect) ∧
    (intersects (projected s.rect (tentative dt s)) p.sndRect = true →
      (innerStep dt s p).mv =
        correctedMovement s.rect p.sndRect (tentative dt s)) ∧
    (s.rect.top + s.rect.height ≤ p.sndRect.top →
      correctedMovement s.rect p.sndRect (tentative dt s) =
        ⟨(tentative dt s).x, p.sndRect.top - (s.rect.top + s.rect.height)⟩) ∧
    (¬ s.rect.top + s.rect.height ≤ p.sndRect.top →
      p.sndRect.top + p.sndRect.height ≤ s.rect.top →
      correctedMovement s.rect p.sndRect (tentative dt s) =
        ⟨(tentative dt s).x,
         -(s.rect.top - (p.sndRect.top + p.sndRect.height))⟩) ∧
    (¬ s.rect.top + s.rect.height ≤ p.sndRect.top →
      ¬ p.sndRect.top + p.sndRect.height ≤ s.rect.top →
      s.rect.left + s.rect.width ≤ p.sndRect.left →
      correctedMovement s.rect p.sndRect (tentative dt s) =
        ⟨p.sndRect.left - (s.rect.left + s.rect.width), (tentative dt s).y⟩) ∧
    (¬ s.rect.top + s.rect.height ≤ p.sndRect.top →
      ¬ p.sndRect.top + p.sndRect.height ≤ s.rect.top →
      ¬ s.rect.left + s.rect.width ≤ p.sndRect.left →
      p.sndRect.left + p.sndRect.width ≤ s.rect.left →
      correctedMovement s.rect p.sndRect (tentative dt s) =
        ⟨-(s.rect.left - (p.sndRect.left + p.sndRect.width)),
         (tentative dt s).y⟩) ∧
    (¬ s.rect.top + s.rect.height ≤ p.sndRect.top →
      ¬ p.sndRect.top + p.sndRect.height ≤ s.rect.top →
      ¬ s.rect.left + s.rect.width ≤ p.sndRect.left →
      ¬ p.sndRect.left + p.sndRect.width ≤ s.rect.left →
      correctedMovement s.rect p.sndRect (tentative dt s) = tentative dt s) ∧
    (s.vel.x = 0 → 0 < s.vel.y →
      intersects (projected s.rect (tentative dt s)) p.sndRect = true →
      s.rect.top + s.rect.height ≤ p.sndRect.top →
      (innerStep dt s p).mv =
        ⟨0, p.sndRect.top - (s.rect.top + s.rect.height)⟩) := by
  have hrec : (innerStep dt s p).recorded =
      intersects (projected s.rect (tentative dt s)) p.sndRect := rfl
  have hclamp : intersects (projected s.rect (tentative dt s)) p.sndRect = true →
      (innerStep dt s p).mv =
        correctedMovement s.rect p.sndRect (tentative dt s) := by
    intro hhit
    unfold innerStep
    simp only [hhit, if_true]
  refine ⟨hrec, hclamp, ?_, ?_, ?_, ?_, ?_, ?_⟩
  · intro h1
    unfold correctedMovement
    rw [if_pos h1]
  · intro h1 h2
    unfold correctedMovement
    rw [if_neg h1, if_pos h2]
  · intro h1 h2 h3
    unfold correctedMovement
    rw [if_neg h1, if_neg h2, if_pos h3]
  · intro h1 h2 h3 h4
    unfold correctedMovement
    rw [if_neg h1, if_neg h2, if_neg h3, if_pos h4]
  · intro h1 h2 h3 h4
    unfold correctedMovement
    rw [if_neg h1, if_neg h2, if_neg h3, if_neg h4]
  · intro hvx hvy hhit h1
    rw [hclamp hhit]
    unfold correctedMovement
    rw [if_pos h1]
    unfold tentative
    rw [hvx]
    norm_num

/-- C4 witness: a 10 x 10 rectangle at the origin moving straight down by
velocity (0, 15) over dt = 1 into a 10 x 10 rectangle whose top edge is at
y = 20: the projection intersects the target, the pair is recorded, and the
vertical displacement is clamped to 20 - (0 + 10) = 10. -/
theorem collision_classification_priority_witness :
    intersects
      (projected (Rect.mk 0 0 10 10) (tentative 1 ⟨⟨0, 0, 10, 10⟩, ⟨0, 15⟩, true⟩))
      (Rect.mk 0 20 10 10) = true ∧
    (innerStep 1 ⟨⟨0, 0, 10, 10⟩, ⟨0, 15⟩, true⟩ ⟨⟨0, 20, 10, 10⟩, true⟩).mv =
      ⟨0, 10⟩ := by
  have hhit : intersects
      (projected (Rect.mk 0 0 10 10) (tentative 1 ⟨⟨0, 0, 10, 10⟩, ⟨0, 15⟩, true⟩))
      (Rect.mk 0 20 10 10) = true := by
    unfold intersects projected tentative
    rw [decide_eq_true_eq]
    unfold Overlaps
    norm_num
  refine ⟨hhit, ?_⟩
  have h := (collision_classification_priority 1
    ⟨⟨0, 0, 10, 10⟩, ⟨0, 15⟩, true⟩ ⟨⟨0, 20, 10, 10⟩, true⟩).2.2.2.2.2.2.2
      rfl (by norm_num) hhit (by norm_num)
  rw [h]
  norm_num

/-- C5 counterexample: an interior collision between two blocking hitboxes
(the pre-movement rectangles already coincide, velocity zero, dt = 1) is a
colliding blocking pair - the pair is recorded - and the resulting velocity
times dt does equal the displacement the step used, but applying that
displacement leaves the rectangles still overlapping: the residual overlap
is not zero, contradicting the claim for every colliding blocking pair. -/
theorem interior_blocking_residual_overlap :
    (innerStep 1 ⟨⟨0, 0, 10, 10⟩, ⟨0, 0⟩, true⟩ ⟨⟨0, 0, 10, 10⟩, true⟩).recorded
        = true ∧
    (innerStep 1 ⟨⟨0, 0, 10, 10⟩, ⟨0, 0⟩, true⟩ ⟨⟨0, 0, 10, 10⟩, true⟩).mv
        = ⟨0, 0⟩ ∧
    (innerStep 1 ⟨⟨0, 0, 10, 10⟩, ⟨0, 0⟩, true⟩ ⟨⟨0, 0, 10, 10⟩, true⟩).state.vel
        = ⟨0, 0⟩ ∧
    intersects (projected (Rect.mk 0 0 10 10) ⟨0, 0⟩) (Rect.mk 0 0 10 10)
        = true := by
  have hhit : intersects (projected (Rect.mk 0 0 10 10) (tentative 1
      ⟨⟨0, 0, 10, 10⟩, ⟨0, 0⟩, true⟩)) (Rect.mk 0 0 10 10) = true := by
    unfold intersects projected tentative
    rw [decide_eq_true_eq]
    unfold Overlaps
    norm_num
  have hcm : correctedMovement ⟨0, 0, 10, 10⟩ ⟨0, 0, 10, 10⟩
      (tentative 1 ⟨⟨0, 0, 10, 10⟩, ⟨0, 0⟩, true⟩) =
      tentative 1 ⟨⟨0, 0, 10, 10⟩, ⟨0, 0⟩, true⟩ := by
    unfold correctedMovement
    norm_num
  refine ⟨?_, ?_, ?_, ?_⟩
  · unfold innerStep
    simp only [hhit]
  · unfold innerStep
    simp only [hhit, if_true, hcm]
    unfold tentative
    norm_num
  · unfold innerStep
    simp only [hhit, if_true, hcm, Bool.and_self]
    unfold tentative
    simp only [if_true]
    norm_num
  · unfold intersects projected
    rw [decide_eq_true_eq]
    unfold Overlaps
    norm_num

/-- C5 amended: for a colliding pair of blocking hitboxes whose collision is
classified to one of the four sides (not interior), with nonnegative
rectangle sizes and a nonzero time step, the mover's resulting velocity
times dt equals the clamped displacement exactly, applying that displacement
leaves zero residual overlap with the struck hitbox, and the pair loop feeds
the corrected state to the later pairs of the same mover. For an interior
collision the displacement is left unchanged and overlap can remain. -/
theorem blocking_side_collision_exact_stop (dt : ℚ) (s : FstState) (p : SndInfo)
    (hdt : dt ≠ 0) (hb1 : s.blocking = true) (hb2 : p.sndBlocking = true)
    (hw1 : 0 ≤ s.rect.width) (hh1 : 0 ≤ s.rect.height)
    (hw2 : 0 ≤ p.sndRect.width) (hh2 : 0 ≤ p.sndRect.height)
    (hhit : intersects (projected s.rect (tentative dt s)) p.sndRect = true)
    (hside : s.rect.top + s.rect.height ≤ p.sndRect.top ∨
             p.sndRect.top + p.sndRect.height ≤ s.rect.top ∨
             s.rect.left + s.rect.width ≤ p.sndRect.left ∨
             p.sndRect.left + p.sndRect.width ≤ s.rect.left) :
    ((innerStep dt s p).state.vel.x * dt = (innerStep dt s p).mv.x ∧
     (innerStep dt s p).state.vel.y * dt = (innerStep dt s p).mv.y) ∧
    intersects (projected s.rect (innerStep dt s p).mv) p.sndRect = false ∧
    (∀ ps, innerLoop dt s (p :: ps) = innerLoop dt (innerStep dt s p).state ps) := by
  have hstep : innerStep dt s p =
      ⟨⟨s.rect, ⟨(correctedMovement s.rect p.sndRect (tentative dt s)).x / dt,
                 (correctedMovement s.rect p.sndRect (tentative dt s)).y / dt⟩,
        s.blocking⟩,
       correctedMovement s.rect p.sndRect (tentative dt s), true⟩ := by
    unfold innerStep
    simp only [hhit, hb1, hb2, Bool.and_self, if_true]
  refine ⟨?_, ?_, fun ps => rfl⟩
  · rw [hstep]
    exact ⟨div_mul_cancel₀ _ hdt, div_mul_cancel₀ _ hdt⟩
  · rw [hstep]
    unfold intersects projected
    rw [decide_eq_false_iff_not]
    unfold correctedMovement
    by_cases c1 : s.rect.top + s.rect.height ≤ p.sndRect.top
    · rw [if_pos c1]
      intro hov
      refine absurd hov.2 (not_lt.mpr ?_)
      refine le_trans (min_le_left _ _) (le_trans (max_le (by simp; linarith)
        (by simp; linarith)) (le_trans (le_min le_rfl (by linarith))
          (le_max_right _ _)))
    · rw [if_neg c1]
      by_cases c2 : p.sndRect.top + p.sndRect.height ≤ s.rect.top
      · rw [if_pos c2]
        intro hov
        refine absurd hov.2 (not_lt.mpr ?_)
        refine le_trans (min_le_right _ _) (le_trans (max_le (by linarith)
          le_rfl) (le_trans (le_min (by simp) (by simp; linarith))
            (le_max_left _ _)))
      · rw [if_neg c2]
        by_cases c3 : s.rect.left + s.rect.width ≤ p.sndRect.left
        · rw [if_pos c3]
          intro hov
          refine absurd hov.1 (not_lt.mpr ?_)
          refine le_trans (min_le_left _ _) (le_trans (max_le (by simp; linarith)
            (by simp; linarith)) (le_trans (le_min le_rfl (by linarith))
              (le_max_right _ _)))
        · rw [if_neg c3]
          by_cases c4 : p.sndRect.left + p.sndRect.width ≤ s.rect.left
          · rw [if_pos c4]
            intro hov
            refine absurd hov.1 (not_lt.mpr ?_)
            refine le_trans (min_le_right _ _) (le_trans (max_le (by linarith)
              le_rfl) (le_trans (le_min (by simp) (by simp; linarith))
                (le_max_left _ _)))
          · rcases hside with h | h | h | h
            · exact absurd h c1
            · exact absurd h c2
            · exact absurd h c3
            · exact absurd h c4

/-- C5 witness: the amended statement applied to the straight-down contact
of the C4 witness configuration (velocity (0, 15), dt = 1, target top at
y = 20): the corrected velocity times dt equals the clamped displacement
and no residual overlap remains. -/
theorem blocking_side_collision_exact_stop_witness :
    ((innerStep 1 ⟨⟨0, 0, 10, 10⟩, ⟨0, 15⟩, true⟩ ⟨⟨0, 20, 10, 10⟩, true⟩).state.vel.x * 1
        = (innerStep 1 ⟨⟨0, 0, 10, 10⟩, ⟨0, 15⟩, true⟩ ⟨⟨0, 20, 10, 10⟩, true⟩).mv.x ∧
     (innerStep 1 ⟨⟨0, 0, 10, 10⟩, ⟨0, 15⟩, true⟩ ⟨⟨0, 20, 10, 10⟩, true⟩).state.vel.y * 1
        = (innerStep 1 ⟨⟨0, 0, 10, 10⟩, ⟨0, 15⟩, true⟩ ⟨⟨0, 20, 10, 10⟩, true⟩).mv.y) ∧
    intersects (projected (Rect.mk 0 0 10 10)
      (innerStep 1 ⟨⟨0, 0, 10, 10⟩, ⟨0, 15⟩, true⟩ ⟨⟨0, 20, 10, 10⟩, true⟩).mv)
      (Rect.mk 0 20 10 10) = false ∧
    (∀ ps, innerLoop 1 ⟨⟨0, 0, 10, 10⟩, ⟨0, 15⟩, true⟩ (⟨⟨0, 20, 10, 10⟩, true⟩ :: ps)
        = innerLoop 1
            (innerStep 1 ⟨⟨0, 0, 10, 10⟩, ⟨0, 15⟩, true⟩ ⟨⟨0, 20, 10, 10⟩, true⟩).state
            ps) :=
  blocking_side_collision_exact_stop 1 ⟨⟨0, 0, 10, 10⟩, ⟨0, 15⟩, true⟩
    ⟨⟨0, 20, 10, 10⟩, true⟩ one_ne_zero rfl rfl (by norm_num) (by norm_num)
    (by norm_num) (by norm_num)
    (by
      unfold intersects projected tentative
      rw [decide_eq_true_eq]
      unfold Overlaps
      norm_num)
    (Or.inl (by norm_num))

/-- C10: whenever both hitboxes of an examined pair are blocking, the
physics loop recomputes the mover's velocity as displacement / dt with no
guard on dt and without requiring that the pair intersected; when the pair
does not intersect and dt is nonzero, this recomputation leaves the
velocity unchanged in exact arithmetic, because the displacement there is
exactly velocity * dt. -/
theorem blocking_recompute_unconditional (dt : ℚ) (s : FstState) (p : SndInfo)
    (hb1 : s.blocking = true) (hb2 : p.sndBlocking = true) :
    (innerStep dt s p).state.vel =
      ⟨(innerStep dt s p).mv.x / dt, (innerStep dt s p).mv.y / dt⟩ ∧
    (dt ≠ 0 → (innerStep dt s p).recorded = false →
      (innerStep dt s p).state.vel = s.vel) := by
  constructor
  · unfold innerStep
    simp only [hb1, hb2, Bool.and_self, if_true]
  · intro hdt hrec
    have hmiss : intersects (projected s.rect (tentative dt s)) p.sndRect
        = false := hrec
    unfold innerStep
    simp only [hmiss, hb1, hb2, Bool.and_self, if_true, Bool.false_eq_true,
      if_false]
    unfold tentative
    simp only [mul_div_cancel_right₀ _ hdt]

/-- C10 witness: a blocking pair whose projection does not reach the second
hitbox (velocity (0, 1), dt = 1, target at y = 100): the recomputed velocity
equals displacement / dt and is unchanged. -/
theorem blocking_recompute_unconditional_witness :
    ((innerStep 1 ⟨⟨0, 0, 10, 10⟩, ⟨0, 1⟩, true⟩ ⟨⟨0, 100, 10, 10⟩, true⟩).state.vel
        = ⟨(innerStep 1 ⟨⟨0, 0, 10, 10⟩, ⟨0, 1⟩, true⟩ ⟨⟨0, 100, 10, 10⟩, true⟩).mv.x / 1,
           (innerStep 1 ⟨⟨0, 0, 10, 10⟩, ⟨0, 1⟩, true⟩ ⟨⟨0, 100, 10, 10⟩, true⟩).mv.y / 1⟩) ∧
    (innerStep 1 ⟨⟨0, 0, 10, 10⟩, ⟨0, 1⟩, true⟩ ⟨⟨0, 100, 10, 10⟩, true⟩).state.vel
        = ⟨0, 1⟩ := by
  have h := blocking_recompute_unconditional 1 ⟨⟨0, 0, 10, 10⟩, ⟨0, 1⟩, true⟩
    ⟨⟨0, 100, 10, 10⟩, true⟩ rfl rfl
  refine ⟨h.1, h.2 one_ne_zero ?_⟩
  show intersects (projected (Rect.mk 0 0 10 10)
    (tentative 1 ⟨⟨0, 0, 10, 10⟩, ⟨0, 1⟩, true⟩)) (Rect.mk 0 100 10 10) = false
  unfold intersects projected tentative
  rw [decide_eq_false_iff_not]
  unfold Overlaps
  norm_num

/-- C1 counterexample: the collision-effects dispatch has no branch for a
pair recorded in the order (Ball, Sakura) - only (Sakura, Ball) is handled.
A recorded (Ball, Sakura) pair is processed with no effect at all: both
entities are returned unchanged (the ball keeps its one life point and a
clear deletion marker) and no event is emitted, contradicting the claim
that the reaction fires for the two category names in either order. -/
theorem ballSakura_pair_no_effect :
    ceStep (mkBall 1 [] 100 64 ⟨100, 50, 64, 64⟩)
        (mkSakura 2 [] ⟨10, 20⟩ ⟨10, 20, 16, 16⟩) =
      some (mkBall 1 [] 100 64 ⟨100, 50, 64, 64⟩,
            mkSakura 2 [] ⟨10, 20⟩ ⟨10, 20, 16, 16⟩, []) ∧
    (mkBall 1 [] 100 64 ⟨100, 50, 64, 64⟩).life = some (1, true) ∧
    (mkBall 1 [] 100 64 ⟨100, 50, 64, 64⟩).marker = some false := by
  refine ⟨?_, rfl, rfl⟩
  rfl

/-- C1 amended: for a collision pair recorded with the player projectile
("Sakura") first and the target ball ("Ball") second - and only in that
order - the collision-effects system zeroes both entities' life points
(leaving the alive flags untouched), sets both deletion markers, and emits
exactly one ColoredBallShot event carrying the ball's color band (its
texture-rect horizontal offset split into four 64-wide bands mapped to red,
blue, green, yellow) and the center of the ball's global bounds. -/
theorem sakuraBall_pair_effects (a b : GEntity) (la lb : ℤ) (aa ab : Bool)
    (sp : SpriteData)
    (hna : a.name = "Sakura") (hnb : b.name = "Ball")
    (hla : a.life = some (la, aa)) (hlb : b.life = some (lb, ab))
    (hma : (a.marker).isSome = true) (hmb : (b.marker).isSome = true)
    (hsp : b.sprite = some sp) :
    ceStep a b =
      some ({ a with life := some (0, aa), marker := some true },
            { b with life := some (0, ab), marker := some true },
            [GEvent.coloredBallShot (ballColor sp.texLeft) (spriteCenter sp)]) := by
  obtain ⟨ma, hma'⟩ := Option.isSome_iff_exists.mp hma
  obtain ⟨mb, hmb'⟩ := Option.isSome_iff_exists.mp hmb
  unfold ceStep
  rw [if_pos ⟨hna, hnb⟩, hlb, hla, hma', hmb', hsp]
  rfl

/-- C1 witness: the amended reaction evaluated on a factory sakura and a
factory ball whose texture rect starts at offset 64 (the blue band): both
lifepoints drop to 0, both markers are set, and the single emitted event
carries the blue color and the ball's visual center. -/
theorem sakuraBall_pair_effects_witness :
    ceStep (mkSakura 2 [] ⟨10, 20⟩ ⟨10, 20, 16, 16⟩)
        (mkBall 1 [] 100 64 ⟨100, 50, 64, 64⟩) =
      some ({ mkSakura 2 [] ⟨10, 20⟩ ⟨10, 20, 16, 16⟩ with
                life := some (0, true), marker := some true },
            { mkBall 1 [] 100 64 ⟨100, 50, 64, 64⟩ with
                life := some (0, true), marker := some true },
            [GEvent.coloredBallShot (ballColor 64)
              (spriteCenter ⟨64, ⟨100, 50, 64, 64⟩⟩)]) :=
  sakuraBall_pair_effects _ _ 1 1 true true ⟨64, ⟨100, 50, 64, 64⟩⟩
    rfl rfl rfl rfl rfl rfl rfl

/-- A registry entry bearing the dispatched category name "Ball" but holding
no life component: the shape of entity on which the collision-effects
system's unguarded lookup dereferences a null pointer. -/
def lifelessBall : GEntity :=
  { eid := 3, name := "Ball", marker := some false, life := none,
    sprite := none, hitbox := none, movement := none, compIds := [] }

/-- C7 counterexample: CollisionEffectsSystem::update performs its Life,
DeletionMarker and Sprite lookups with no existence check. Feeding it a
recorded pair whose second entity is named "Ball" but has no Life component
makes the very first lookup of the (Sakura, Ball) branch dereference an
absent component (result none, the model of the null-pointer dereference),
refuting the claim that every lookup is preceded by an existence check. -/
theorem ceStep_unguarded_lookup_fails :
    ceStep (mkSakura 4 [] ⟨0, 0⟩ ⟨0, 0, 16, 16⟩) lifelessBall = none := by
  rfl

/-- C7 amended: the collision-effects system does not guard its component
lookups; no null dereference happens in the game only because every entity
created through the world's factory paths that carries one of the category
names the dispatch matches also carries the components that branch reads.
For any two factory-made entities, every lookup ceStep performs succeeds. -/
theorem ceStep_total_on_factory_entities (a b : GEntity)
    (ha : FactoryMade a) (hb : FactoryMade b) :
    (ceStep a b).isSome = true := by
  rcases ha with ⟨e1, c1, b1, rfl⟩ | ⟨e1, c1, p1, b1, rfl⟩ |
    ⟨e1, c1, x1, r1, b1, rfl⟩ | ⟨e1, c1, p1, rfl⟩ | ⟨e1, c1, rfl⟩ <;>
  rcases hb with ⟨e2, c2, b2, rfl⟩ | ⟨e2, c2, p2, b2, rfl⟩ |
    ⟨e2, c2, x2, r2, b2, rfl⟩ | ⟨e2, c2, p2, rfl⟩ | ⟨e2, c2, rfl⟩ <;>
  rfl

/-- C7 witness: the totality statement applied to a factory ball colliding
with the factory player. -/
theorem ceStep_total_on_factory_entities_witness :
    (ceStep (mkBall 1 [] 100 64 ⟨100, 50, 64, 64⟩)
      (mkPlayer 0 [] ⟨0, 0, 64, 64⟩)).isSome = true :=
  ceStep_total_on_factory_entities _ _
    (Or.inr (Or.inr (Or.inl ⟨1, [], 100, 64, ⟨100, 50, 64, 64⟩, rfl⟩)))
    (Or.inl ⟨0, [], ⟨0, 0, 64, 64⟩, rfl⟩)

lemma mem_of_mem_eraseFirst {c x : ℕ} :
    ∀ {l : List ℕ}, x ∈ eraseFirst l c → x ∈ l
  | [], h => by simp [eraseFirst] at h
  | a :: as, h => by
      unfold eraseFirst at h
      by_cases hac : a = c
      · rw [if_pos hac] at h
        exact List.mem_cons_of_mem _ h
      · rw [if_neg hac] at h
        rcases List.mem_cons.mp h with rfl | h'
        · exact List.mem_cons_self _ _
        · exact List.mem_cons_of_mem _ (mem_of_mem_eraseFirst h')

lemma mem_eraseFirst_of_ne {c x : ℕ} (hne : x ≠ c) :
    ∀ {l : List ℕ}, x ∈ l → x ∈ eraseFirst l c
  | [], h => by simp at h
  | a :: as, h => by
      unfold eraseFirst
      by_cases hac : a = c
      · rw [if_pos hac]
        rcases List.mem_cons.mp h with rfl | h'
        · exact absurd hac hne
        · exact h'
      · rw [if_neg hac]
        rcases List.mem_cons.mp h with rfl | h'
        · exact List.mem_cons_self _ _
        · exact List.mem_cons_of_mem _ (mem_eraseFirst_of_ne hne h')

lemma not_mem_eraseFirst_self (c : ℕ) :
    ∀ l : List ℕ, l.Nodup → c ∉ eraseFirst l c
  | [], _ => by simp [eraseFirst]
  | a :: as, hnd => by
      unfold eraseFirst
      by_cases hac : a = c
      · rw [if_pos hac]
        subst hac
        exact (List.nodup_cons.mp hnd).1
      · rw [if_neg hac]
        intro h
        rcases List.mem_cons.mp h with h1 | h2
        · exact hac h1.symm
        · exact not_mem_eraseFirst_self c as (List.nodup_cons.mp hnd).2 h2

lemma nodup_eraseFirst (c : ℕ) :
    ∀ l : List ℕ, l.Nodup → (eraseFirst l c).Nodup
  | [], _ => by simp [eraseFirst]
  | a :: as, hnd => by
      unfold eraseFirst
      by_cases hac : a = c
      · rw [if_pos hac]
        exact (List.nodup_cons.mp hnd).2
      · rw [if_neg hac]
        refine List.nodup_cons.mpr
          ⟨?_, nodup_eraseFirst c as (List.nodup_cons.mp hnd).2⟩
        intro h
        exact (List.nodup_cons.mp hnd).1 (mem_of_mem_eraseFirst h)

lemma nodup_removeComps :
    ∀ (cs reg : List ℕ), reg.Nodup → (removeComps reg cs).Nodup
  | [], _, hnd => hnd
  | c :: cs, reg, hnd => by
      unfold removeComps
      rw [List.foldl_cons]
      exact nodup_removeComps cs _ (nodup_eraseFirst c reg hnd)

lemma mem_removeComps_iff (x : ℕ) :
    ∀ (cs reg : List ℕ), reg.Nodup →
      (x ∈ removeComps reg cs ↔ x ∈ reg ∧ x ∉ cs)
  | [], reg, _ => by simp [removeComps]
  | c :: cs, reg, hnd => by
      unfold removeComps
      rw [List.foldl_cons]
      have h1 := mem_removeComps_iff x cs (eraseFirst reg c)
        (nodup_eraseFirst c reg hnd)
      unfold removeComps at h1
      rw [h1]
      constructor
      · rintro ⟨hmem, hnotin⟩
        refine ⟨mem_of_mem_eraseFirst hmem, ?_⟩
        intro hx
        rcases List.mem_cons.mp hx with rfl | hx'
        · exact not_mem_eraseFirst_self x reg hnd hmem
        · exact hnotin hx'
      · rintro ⟨hmem, hnotin⟩
        have hne : x ≠ c := fun h => hnotin (h ▸ List.mem_cons_self _ _)
        exact ⟨mem_eraseFirst_of_ne hne hmem,
               fun hx => hnotin (List.mem_cons_of_mem _ hx)⟩

lemma lifeStep_eid (e : GEntity) : (lifeStep e).1.eid = e.eid := by
  unfold lifeStep
  cases h : e.life with
  | none => rfl
  | some v =>
      rcases v with ⟨lp, al⟩
      by_cases hle : lp ≤ 0
      · simp [hle]
      · simp [hle]

lemma lifePass_preserves_ids :
    ∀ es : List GEntity,
      ((lifePass es).1).map GEntity.eid = es.map GEntity.eid
  | [] => rfl
  | e :: es => by
      unfold lifePass
      simp only [List.map_cons]
      rw [lifeStep_eid, lifePass_preserves_ids es]

lemma cleanGo_spec :
    ∀ (es : List GEntity) (reg : List ℕ),
      (∀ e ∈ es, (e.marker).isSome = true) → reg.Nodup →
      ∃ es' reg', cleanGo es reg = some (es', reg') ∧
        es' = es.filter (fun e => decide (e.marker = some false)) ∧
        reg'.Nodup ∧
        ∀ c : ℕ, c ∈ reg' ↔
          (c ∈ reg ∧ ∀ e ∈ es, e.marker = some true → c ∉ e.compIds)
  | [], reg, _, hnd => ⟨[], reg, rfl, by simp, hnd, by simp⟩
  | e :: es, reg, hall, hnd => by
      have hm := hall e (List.mem_cons_self _ _)
      obtain ⟨b, hb⟩ := Option.isSome_iff_exists.mp hm
      have hall' : ∀ x ∈ es, (x.marker).isSome = true :=
        fun x hx => hall x (List.mem_cons_of_mem _ hx)
      cases b with
      | true =>
          obtain ⟨es', reg', hgo, hfil, hnd', hmem⟩ :=
            cleanGo_spec es (removeComps reg e.compIds) hall'
              (nodup_removeComps _ _ hnd)
          refine ⟨es', reg', ?_, ?_, hnd', ?_⟩
          · unfold cleanGo
            rw [hb]
            exact hgo
          · rw [hfil, List.filter_cons]
            simp [hb]
          · intro c
            rw [hmem c, mem_removeComps_iff c _ _ hnd]
            constructor
            · rintro ⟨⟨h1, h2⟩, h3⟩
              refine ⟨h1, ?_⟩
              intro x hx hxm
              rcases List.mem_cons.mp hx with rfl | hx'
              · exact h2
              · exact h3 x hx' hxm
            · rintro ⟨h1, h2⟩
              exact ⟨⟨h1, h2 e (List.mem_cons_self _ _) hb⟩,
                     fun x hx hxm => h2 x (List.mem_cons_of_mem _ hx) hxm⟩
      | false =>
          obtain ⟨es', reg', hgo, hfil, hnd', hmem⟩ :=
            cleanGo_spec es reg hall' hnd
          refine ⟨e :: es', reg', ?_, ?_, hnd', ?_⟩
          · unfold cleanGo
            rw [hb, hgo]
          · rw [hfil, List.filter_cons]
            simp [hb]
          · intro c
            rw [hmem c]
            constructor
            · rintro ⟨h1, h2⟩
              refine ⟨h1, fun x hx hxm => ?_⟩
              rcases List.mem_cons.mp hx with rfl | hx'
              · rw [hb] at hxm
                simp at hxm
              · exact h2 x hx' hxm
            · rintro ⟨h1, h2⟩
              exact ⟨h1, fun x hx hxm => h2 x (List.mem_cons_of_mem _ hx) hxm⟩

/-- C8: systems never remove entities mid-tick - a pass such as the life
system returns a registry with exactly the same entity ids, so an entity
whose deletion marker is set mid-tick stays present for the remaining
passes of the tick - and, when the end-of-tick sweep World::cleanEntities
runs on a world whose entities all carry a deletion marker and whose
component registry has no duplicate entries, the surviving entity list is
exactly the original list filtered to the unmarked entities (unchanged and
in order, so every marked entity is gone and every unmarked entity
remains), and a component id is in the surviving component registry exactly
when it was there before and is owned by no marked entity - in particular
every component of every marked entity is absent. -/
theorem cleanEntities_sweep_spec (st : WorldSt)
    (hall : ∀ e ∈ st.entities, (e.marker).isSome = true)
    (hnd : st.registry.Nodup) :
    (∀ es : List GEntity,
      ((lifePass es).1).map GEntity.eid = es.map GEntity.eid) ∧
    ∃ st', cleanEntities st = some st' ∧
      st'.entities =
        st.entities.filter (fun e => decide (e.marker = some false)) ∧
      (∀ e ∈ st.entities, e.marker = some true → e ∉ st'.entities) ∧
      (∀ e ∈ st.entities, e.marker = some false → e ∈ st'.entities) ∧
      (∀ c : ℕ, c ∈ st'.registry ↔
        (c ∈ st.registry ∧
          ∀ e ∈ st.entities, e.marker = some true → c ∉ e.compIds)) := by
  obtain ⟨es', reg', hgo, hfil, _, hmem⟩ :=
    cleanGo_spec st.entities st.registry hall hnd
  refine ⟨lifePass_preserves_ids, ⟨es', reg'⟩, ?_, hfil, ?_, ?_, hmem⟩
  · unfold cleanEntities
    rw [hgo]
  · intro e he hmark hin
    rw [hfil] at hin
    have := (List.mem_filter.mp hin).2
    rw [hmark] at this
    simp at this
  · intro e he hmark
    rw [hfil]
    refine List.mem_filter.mpr ⟨he, ?_⟩
    rw [hmark]
    simp

/-- C8 witness: a world with one marked entity owning components 1 and 2
and one unmarked entity owning component 3, registry [1, 2, 3]: after the
sweep the marked entity and its two components are gone and the unmarked
entity and its component remain. -/
theorem cleanEntities_sweep_spec_witness :
    (∀ e ∈ (WorldSt.mk
        [{ eid := 1, name := "Sakura", marker := some true, life := some (0, true),
           sprite := none, hitbox := none, movement := none, compIds := [1, 2] },
         { eid := 2, name := "Box", marker := some false, life := none,
           sprite := none, hitbox := none, movement := none, compIds := [3] }]
        [1, 2, 3]).entities, (e.marker).isSome = true) ∧
    (∃ st', cleanEntities (WorldSt.mk
        [{ eid := 1, name := "Sakura", marker := some true, life := some (0, true),
           sprite := none, hitbox := none, movement := none, compIds := [1, 2] },
         { eid := 2, name := "Box", marker := some false, life := none,
           sprite := none, hitbox := none, movement := none, compIds := [3] }]
        [1, 2, 3]) = some st' ∧
      st'.entities = (WorldSt.mk
        [{ eid := 1, name := "Sakura", marker := some true, life := some (0, true),
           sprite := none, hitbox := none, movement := none, compIds := [1, 2] },
         { eid := 2, name := "Box", marker := some false, life := none,
           sprite := none, hitbox := none, movement := none, compIds := [3] }]
        [1, 2, 3]).entities.filter (fun e => decide (e.marker = some false)) ∧
      (∀ e ∈ (WorldSt.mk
        [{ eid := 1, name := "Sakura", marker := some true, life := some (0, true),
           sprite := none, hitbox := none, movement := none, compIds := [1, 2] },
         { eid := 2, name := "Box", marker := some false, life := none,
           sprite := none, hitbox := none, movement := none, compIds := [3] }]
        [1, 2, 3]).entities, e.marker = some true → e ∉ st'.entities) ∧
      (∀ e ∈ (WorldSt.mk
        [{ eid := 1, name := "Sakura", marker := some true, life := some (0, true),
           sprite := none, hitbox := none, movement := none, compIds := [1, 2] },
         { eid := 2, name := "Box", marker := some false, life := none,
           sprite := none, hitbox := none, movement := none, compIds := [3] }]
        [1, 2, 3]).entities, e.marker = some false → e ∈ st'.entities) ∧
      (∀ c : ℕ, c ∈ st'.registry ↔
        (c ∈ [1, 2, 3] ∧
          ∀ e ∈ (WorldSt.mk
        [{ eid := 1, name := "Sakura", marker := some true, life := some (0, true),
           sprite := none, hitbox := none, movement := none, compIds := [1, 2] },
         { eid := 2, name := "Box", marker := some false, life := none,
           sprite := none, hitbox := none, movement := none, compIds := [3] }]
        [1, 2, 3]).entities, e.marker = some true → c ∉ e.compIds))) :=
  ⟨by decide,
   (cleanEntities_sweep_spec _ (by decide) (by decide)).2⟩

end SakuraNoHana
